import Mathlib

/-!
Verification of the MiniMax provider-strategy module
(`src/main/models/providers/minimax.ts`) against its specification.

The module is shallowly embedded: JavaScript numbers are modelled as
rationals (ℚ), optional / possibly-`undefined` values as `Option`,
the single HTTP `fetch` call as an oracle input (`FetchOutcome`), and
the host's environment-variable resolver (`getEffectiveEnvironmentVariable`,
an external collaborator of the module) as an abstract function carried by
`SettingsData`.  Logging is made observable by returning the list of
emitted log entries, and the HTTP request that would be issued is
returned so that "no request is performed" is expressible.
-/

/-- A JavaScript value, as produced by `response.json()`. -/
inductive JsValue where
  | str (s : String)
  | num (q : ℚ)
  | jbool (b : Bool)
  | null
  | arr (elems : List JsValue)
  | obj (fields : List (String × JsValue))

/-- Property lookup on a JavaScript object: `none` models `undefined`
(absent property); a duplicate key keeps the last binding, as in JS. -/
def jget (fields : List (String × JsValue)) (key : String) : Option JsValue :=
  fields.foldl (fun acc p => if p.1 = key then some p.2 else acc) none

/-- The nullish-coalescing operator `a ?? b`: `b` when `a` is
`undefined` (`none`) or `null`, otherwise `a`. -/
def jcoalesce (a b : Option JsValue) : Option JsValue :=
  match a with
  | none => b
  | some JsValue.null => b
  | some v => some v

/-- `Array.isArray(data?.data) ? data.data : []` (line 83 of the source):
the `data` property of the response body when it is an array, else `[]`.
Optional chaining on `null` and property access on primitives both yield
`undefined`, hence the empty list. -/
def dataArray (v : JsValue) : List JsValue :=
  match v with
  | JsValue.obj fields =>
    match jget fields "data" with
    | some (JsValue.arr xs) => xs
    | _ => []
  | _ => []

/-- The callback of `remoteModels.map` (lines 85-99): a bare string is
its own identifier; a truthy object yields
`model.id ?? model.model ?? model.name` provided that candidate is a
string; everything else yields `undefined`.  `null` is falsy and arrays
carry none of the three properties, so both fall to `none`. -/
def modelIdCandidate : JsValue → Option String
  | JsValue.str s => some s
  | JsValue.obj fields =>
    match jcoalesce (jget fields "id") (jcoalesce (jget fields "model") (jget fields "name")) with
    | some (JsValue.str s) => some s
    | _ => none
  | _ => none

/-- The `.map` callback composed with the
`typeof modelId === 'string' && modelId.length > 0` filter (line 100). -/
def usableModelId (v : JsValue) : Option String :=
  match modelIdCandidate v with
  | some s => if s.length > 0 then some s else none
  | none => none

/-- A JavaScript exception value, as discriminated by the `catch` block
(lines 109-122): a thrown string, an `Error` object (only its `message`
is consumed), or any other value, for which `JSON.stringify` is tried
(`none` models a `stringify` that itself throws) with `String(error)`
as last resort. -/
inductive JsError where
  | str (s : String)
  | errObj (message : String)
  | other (stringified : Option String) (stringForm : String)

/-- The reason string the `catch` block derives from a thrown value. -/
def reasonOfJsError : JsError → String
  | JsError.str s => s
  | JsError.errObj m => m
  | JsError.other (some j) _ => j
  | JsError.other none t => t

/-- The observable part of a `fetch` `Response`.  `textResult = none`
models a `response.text()` that rejects (the source catches this and
substitutes `''`); `jsonResult = .error e` models a `response.json()`
that rejects with `e` (routed to the outer `catch`). -/
structure JsResponse where
  status : Nat
  statusText : String
  textResult : Option String
  jsonResult : Except JsError JsValue

/-- `response.ok`: status in the inclusive range 200-299 (fetch spec). -/
def JsResponse.ok (r : JsResponse) : Bool :=
  decide (200 ≤ r.status) && decide (r.status ≤ 299)

/-- Outcome of the single `fetch` call: a settled response, or a
rejection (network failure) caught by the `catch` block. -/
inductive FetchOutcome where
  | resp (r : JsResponse)
  | reject (e : JsError)

/-- Result of the host's `getEffectiveEnvironmentVariable` collaborator. -/
structure EffectiveEnvVar where
  value : String
  source : String
deriving DecidableEq

/-- Modelled from the spec: the host settings store exposes environment
resolution only through `getEffectiveEnvironmentVariable('MINIMAX_API_KEY',
settings, scopeDir?)`, an external collaborator whose body is not part of
this module; it is abstracted as a function from the optional project-scope
directory to the resolved variable, `MINIMAX_API_KEY` being the only name
the module ever asks for. -/
structure SettingsData where
  resolveMinimaxApiKey : Option String → Option EffectiveEnvVar

/-- Provider-specific configuration held by a profile: a MiniMax config
with an optional API key, or a config of some other provider type
(rejected by the `isMiniMaxProvider` type guard). -/
inductive ProviderConfig where
  | minimax (apiKey : Option String)
  | other
deriving DecidableEq

/-- The `isMiniMaxProvider` type guard. -/
def isMiniMaxProvider : ProviderConfig → Bool
  | ProviderConfig.minimax _ => true
  | ProviderConfig.other => false

/-- The `provider.apiKey` field read through the `as MiniMaxProvider`
cast: `undefined` on a non-MiniMax config. -/
def ProviderConfig.apiKeyField : ProviderConfig → Option String
  | ProviderConfig.minimax k => k
  | ProviderConfig.other => none

/-- JavaScript truthiness of an optional string: `undefined` and `''`
are falsy. -/
def optStrTruthy : Option String → Bool
  | none => false
  | some s => decide (s ≠ "")

/-- Truthiness of `envVar?.value`. -/
def envValueTruthy : Option EffectiveEnvVar → Bool
  | none => false
  | some v => decide (v.value ≠ "")

/-- A configured provider instance. -/
structure ProviderProfile where
  id : String
  provider : ProviderConfig
  headers : List (String × String)
deriving DecidableEq

/-- Static per-model pricing metadata (`ModelInfo`). -/
structure ModelInfo where
  inputCostPerToken : Option ℚ
  outputCostPerToken : Option ℚ
  cacheWriteInputTokenCost : Option ℚ
  cacheReadInputTokenCost : Option ℚ
deriving DecidableEq

/-- A runtime-usable model record: identifier, owning provider id, and
the merged-in optional pricing metadata. -/
structure Model where
  id : String
  providerId : String
  inputCostPerToken : Option ℚ
  outputCostPerToken : Option ℚ
  cacheWriteInputTokenCost : Option ℚ
  cacheReadInputTokenCost : Option ℚ
deriving DecidableEq

/-- The response of model discovery (`LoadModelsResponse`). -/
structure LoadModelsResponse where
  models : List Model
  success : Bool
  error : Option String
deriving DecidableEq

/-- An entry emitted through the logger. -/
inductive LogEntry where
  | warn (msg : String)
  | debug (msg : String)
deriving DecidableEq

/-- Full observable behaviour of one `loadMiniMaxModels` call: the HTTP
request's headers when a request was issued (`none` when the function
returned before fetching), the returned value, and the log entries. -/
structure LoadResult where
  request : Option (List (String × String))
  response : LoadModelsResponse
  logs : List LogEntry
deriving DecidableEq

def MINIMAX_BASE_URL : String := "https://api.minimax.io/anthropic"

def MINIMAX_MODELS_ENDPOINT : String := MINIMAX_BASE_URL ++ "/v1/models"

def KNOWN_MINIMAX_MODELS : List String := ["MiniMax-M2", "MiniMax-M2-Stable"]

/-- Code points JavaScript regexes treat as `\s` (and `trim` strips):
ASCII whitespace, line/paragraph separators and the unicode spaces. -/
def isJsWhitespace (c : Char) : Bool :=
  [9, 10, 11, 12, 13, 32, 160, 5760, 8192, 8193, 8194, 8195, 8196, 8197,
   8198, 8199, 8200, 8201, 8202, 8232, 8233, 8239, 8287, 12288, 65279].contains c.toNat

/-- Drops characters up to and including the first close angle bracket,
or `none` when there is none. -/
def afterGt : List Char → Option (List Char)
  | [] => none
  | c :: cs => if c = '>' then some cs else afterGt cs

theorem afterGt_length : ∀ (l t : List Char), afterGt l = some t → t.length < l.length := by
  intro l
  induction l with
  | nil => intro t h; simp [afterGt] at h
  | cons c cs ih =>
    intro t h
    by_cases hc : c = '>'
    · simp [afterGt, hc] at h
      simp [← h]
    · simp [afterGt, hc] at h
      exact Nat.lt_succ_of_lt (ih t h)

/-- `reason.replace(/<[^>]*>/g, ' ')`: each leftmost occurrence of an
open angle bracket together with everything up to the next close angle
bracket becomes one space; an open bracket with no later close bracket
matches nothing. -/
def stripTags : List Char → List Char
  | [] => []
  | c :: cs =>
    if c = '<' then
      match h : afterGt cs with
      | some rest => ' ' :: stripTags rest
      | none => c :: stripTags cs
    else c :: stripTags cs
termination_by l => l.length
decreasing_by
  · exact Nat.lt_succ_of_lt (afterGt_length cs rest h)
  · simp
  · simp

theorem dropWhile_length_le (p : Char → Bool) :
    ∀ (l : List Char), (l.dropWhile p).length ≤ l.length := by
  intro l
  induction l with
  | nil => simp [List.dropWhile]
  | cons c cs ih =>
    by_cases hc : p c = true
    · simp [List.dropWhile, hc]
      exact Nat.le_succ_of_le ih
    · simp [List.dropWhile, hc]

/-- `.replace(/\s+/g, ' ')`: each maximal run of whitespace becomes a
single space. -/
def collapseWhitespace : List Char → List Char
  | [] => []
  | c :: cs =>
    if isJsWhitespace c then ' ' :: collapseWhitespace (cs.dropWhile isJsWhitespace)
    else c :: collapseWhitespace cs
termination_by l => l.length
decreasing_by
  · exact Nat.lt_succ_of_le (dropWhile_length_le isJsWhitespace cs)
  · simp

/-- `String.prototype.trim`. -/
def jsTrim (l : List Char) : List Char :=
  ((l.dropWhile isJsWhitespace).reverse.dropWhile isJsWhitespace).reverse

/-- The `sanitizeReason` helper (lines 48-53): strip HTML tags, collapse
whitespace, trim. -/
def sanitizeReason (reason : String) : String :=
  String.mk (jsTrim (collapseWhitespace (stripTags reason.data)))

/-- The `toModel` helper (lines 38-46): merge the optional static
metadata into an identifier/provider-id record. -/
def toModel (providerId : String) (modelsInfo : String → Option ModelInfo)
    (modelId : String) : Model :=
  { id := modelId
    providerId := providerId
    inputCostPerToken := (modelsInfo modelId).bind ModelInfo.inputCostPerToken
    outputCostPerToken := (modelsInfo modelId).bind ModelInfo.outputCostPerToken
    cacheWriteInputTokenCost := (modelsInfo modelId).bind ModelInfo.cacheWriteInputTokenCost
    cacheReadInputTokenCost := (modelsInfo modelId).bind ModelInfo.cacheReadInputTokenCost }

/-- `sanitizeReason(reason) || 'Unknown error'` (line 56). -/
def sanitizedOrUnknown (reason : String) : String :=
  if sanitizeReason reason = "" then "Unknown error" else sanitizeReason reason

/-- The warning text of line 58. -/
def fallbackLogMessage (reason : String) : String :=
  "MiniMax models API unavailable (" ++ sanitizedOrUnknown reason ++
    "). Falling back to static MiniMax model list: " ++
    String.intercalate ", " KNOWN_MINIMAX_MODELS

/-- The `fallbackToKnownModels` helper (lines 55-63), with the issued
request threaded through unchanged. -/
def fallbackToKnownModels (providerId : String) (modelsInfo : String → Option ModelInfo)
    (request : Option (List (String × String))) (reason : String) : LoadResult :=
  { request := request
    response :=
      { models := KNOWN_MINIMAX_MODELS.map (toModel providerId modelsInfo)
        success := true
        error := none }
    logs := [LogEntry.warn (fallbackLogMessage reason)] }

/-- The headers of the model-list request (lines 66-71):
`x-api-key: apiKey || apiKeyEnv?.value || ''` and the protocol version. -/
def requestHeaders (apiKey : String) (apiKeyEnv : Option EffectiveEnvVar) :
    List (String × String) :=
  [("x-api-key",
    if apiKey ≠ "" then apiKey
    else match apiKeyEnv with
      | some v => if v.value ≠ "" then v.value else ""
      | none => ""),
   ("anthropic-version", "2023-06-01")]

/-- `loadMiniMaxModels` (lines 18-126).  The outcome of the single
`fetch` is an oracle input; the headers it was issued with, the returned
`LoadModelsResponse` and the log entries are all observable in the
result. -/
def loadMiniMaxModels (profile : ProviderProfile) (modelsInfo : String → Option ModelInfo)
    (settings : SettingsData) (outcome : FetchOutcome) : LoadResult :=
  if isMiniMaxProvider profile.provider = false then
    { request := none, response := { models := [], success := false, error := none }, logs := [] }
  else
    let apiKey := (ProviderConfig.apiKeyField profile.provider).getD ""
    let apiKeyEnv := settings.resolveMinimaxApiKey none
    if apiKey = "" ∧ envValueTruthy apiKeyEnv = false then
      { request := none, response := { models := [], success := false, error := none }, logs := [] }
    else
      let headers := requestHeaders apiKey apiKeyEnv
      match outcome with
      | FetchOutcome.reject e =>
        fallbackToKnownModels profile.id modelsInfo (some headers) (reasonOfJsError e)
      | FetchOutcome.resp r =>
        if r.ok then
          match r.jsonResult with
          | Except.error e =>
            fallbackToKnownModels profile.id modelsInfo (some headers) (reasonOfJsError e)
          | Except.ok data =>
            let modelIds := (dataArray data).filterMap usableModelId
            if modelIds = [] then
              fallbackToKnownModels profile.id modelsInfo (some headers)
                "Empty or unsupported MiniMax models response payload"
            else
              { request := some headers
                response :=
                  { models := modelIds.map (toModel profile.id modelsInfo)
                    success := true
                    error := none }
                logs := [] }
        else
          let errorText := r.textResult.getD ""
          let reasonParts :=
            [toString r.status ++ " " ++ r.statusText] ++
              (if errorText ≠ "" then [errorText] else [])
          fallbackToKnownModels profile.id modelsInfo (some headers)
            (String.intercalate " - " reasonParts)

/-- `hasMiniMaxEnvVars` (lines 128-130): `!!envVar?.value` with
global-scope resolution. -/
def hasMiniMaxEnvVars (settings : SettingsData) : Bool :=
  envValueTruthy (settings.resolveMinimaxApiKey none)

/-- The value object returned by `getMiniMaxAiderMapping`. -/
structure AiderModelMapping where
  modelName : String
  environmentVariables : List (String × String)
deriving DecidableEq

/-- `getMiniMaxAiderMapping` (lines 132-146): binds the base-URL
variable unconditionally, the API-key variable only when the profile
carries a truthy explicit key, and namespaces the model identifier. -/
def getMiniMaxAiderMapping (provider : ProviderProfile) (modelId : String) :
    AiderModelMapping :=
  let key := ProviderConfig.apiKeyField provider.provider
  { modelName := "anthropic/" ++ modelId
    environmentVariables :=
      ("ANTHROPIC_API_URL", MINIMAX_BASE_URL) ::
        (if optStrTruthy key then [("ANTHROPIC_API_KEY", key.getD "")] else []) }

/-- What `createAnthropic({apiKey, baseURL, headers})(model.id)`
receives: the constructed model handle. -/
structure LlmHandle where
  apiKey : String
  baseURL : String
  headers : List (String × String)
  modelId : String
deriving DecidableEq

/-- The message of the configuration error thrown by `createMiniMaxLlm`
(line 161). -/
def minimaxKeyErrorMessage : String :=
  "MiniMax API key is required in Providers settings or Aider environment variables (MINIMAX_API_KEY)"

/-- `createMiniMaxLlm` (lines 148-170): explicit profile key first,
else project-scoped environment resolution (with a debug log naming the
source), else a thrown configuration error, modelled as `Except.error`.
The emitted log entries are the second component. -/
def createMiniMaxLlm (profile : ProviderProfile) (model : Model)
    (settings : SettingsData) (projectDir : String) :
    Except String LlmHandle × List LogEntry :=
  let apiKey0 := ProviderConfig.apiKeyField profile.provider
  let resolved :=
    if optStrTruthy apiKey0 then (apiKey0.getD "", ([] : List LogEntry))
    else
      match settings.resolveMinimaxApiKey (some projectDir) with
      | some v => (v.value, [LogEntry.debug ("Loaded MINIMAX_API_KEY from " ++ v.source)])
      | none => ("", [])
  if resolved.1 = "" then
    (Except.error minimaxKeyErrorMessage, resolved.2)
  else
    (Except.ok
      { apiKey := resolved.1
        baseURL := MINIMAX_BASE_URL
        headers := profile.headers
        modelId := model.id }, resolved.2)

/-- `calculateMiniMaxCost` (lines 179-198). -/
def calculateMiniMaxCost (model : Model) (sentTokens receivedTokens : ℚ)
    (cacheWriteTokens : ℚ) (cacheReadTokens : ℚ) : ℚ :=
  let inputCostPerToken := model.inputCostPerToken.getD 0
  let outputCostPerToken := model.outputCostPerToken.getD 0
  let cacheWriteInputTokenCost := model.cacheWriteInputTokenCost.getD inputCostPerToken
  let cacheReadInputTokenCost := model.cacheReadInputTokenCost.getD 0
  let inputCost := sentTokens * inputCostPerToken
  let outputCost := receivedTokens * outputCostPerToken
  let cacheCreationCost := cacheWriteTokens * cacheWriteInputTokenCost
  let cacheReadCost := cacheReadTokens * cacheReadInputTokenCost
  let cacheCost := cacheCreationCost + cacheReadCost
  inputCost + outputCost + cacheCost

/-- The token-usage snapshot (`LanguageModelUsage`); absent counters are
`none`. -/
structure LanguageModelUsage where
  inputTokens : Option ℚ
  outputTokens : Option ℚ
  cachedInputTokens : Option ℚ
deriving DecidableEq

/-- The `anthropic` member of the provider metadata (`MiniMaxMetadata`). -/
structure AnthropicMetadata where
  cacheCreationInputTokens : Option ℚ
  cacheReadInputTokens : Option ℚ
deriving DecidableEq

/-- Optional provider metadata: `(providerMetadata as MiniMaxMetadata) || {}`
destructures to an optional `anthropic` member. -/
structure ProviderMetadata where
  anthropic : Option AnthropicMetadata
deriving DecidableEq

/-- The task record: `task.task.agentTotalCost` carries the running
total. -/
structure TaskData where
  agentTotalCost : ℚ
deriving DecidableEq

/-- The task object passed to the usage report; the source reads
`task.task.agentTotalCost`. -/
structure AgentTask where
  task : TaskData
deriving DecidableEq

/-- The usage report (`UsageReportData`). -/
structure UsageReportData where
  model : String
  sentTokens : ℚ
  receivedTokens : ℚ
  cacheWriteTokens : ℚ
  cacheReadTokens : ℚ
  messageCost : ℚ
  agentTotalCost : ℚ
deriving DecidableEq

/-- JavaScript `x || 0` on an optional number: the value when it is
present and non-zero, else `0`. -/
def jsNumOrZero (o : Option ℚ) : ℚ :=
  match o with
  | some x => if x ≠ 0 then x else 0
  | none => 0

/-- `getMiniMaxUsageReport` (lines 200-229). -/
def getMiniMaxUsageReport (task : AgentTask) (provider : ProviderProfile) (model : Model)
    (usage : LanguageModelUsage) (providerMetadata : Option ProviderMetadata) :
    UsageReportData :=
  let totalSentTokens := jsNumOrZero usage.inputTokens
  let receivedTokens := jsNumOrZero usage.outputTokens
  let anthropic := providerMetadata.bind ProviderMetadata.anthropic
  let cacheWriteTokens := (anthropic.bind AnthropicMetadata.cacheCreationInputTokens).getD 0
  let cacheReadTokens :=
    match anthropic.bind AnthropicMetadata.cacheReadInputTokens with
    | some x => x
    | none => usage.cachedInputTokens.getD 0
  let sentTokens := totalSentTokens - cacheReadTokens
  let messageCost :=
    calculateMiniMaxCost model sentTokens receivedTokens cacheWriteTokens cacheReadTokens
  { model := provider.id ++ "/" ++ model.id
    sentTokens := sentTokens
    receivedTokens := receivedTokens
    cacheWriteTokens := cacheWriteTokens
    cacheReadTokens := cacheReadTokens
    messageCost := messageCost
    agentTotalCost := task.task.agentTotalCost + messageCost }

/-- Formula of spec section 4.5, written from its words: cost =
sentTokens × inputRate + receivedTokens × outputRate + cacheWriteTokens ×
cacheWriteRate + cacheReadTokens × cacheReadRate, the cache-write rate
defaulting to the input rate, the cache-read rate to 0, and every rate
to 0 when its metadata field is absent. -/
def specCostFormula (model : Model) (sentTokens receivedTokens cacheWriteTokens cacheReadTokens : ℚ) : ℚ :=
  sentTokens * model.inputCostPerToken.getD 0 +
    receivedTokens * model.outputCostPerToken.getD 0 +
    cacheWriteTokens * model.cacheWriteInputTokenCost.getD (model.inputCostPerToken.getD 0) +
    cacheReadTokens * model.cacheReadInputTokenCost.getD 0

/-- Formula of spec section 4.6, written from its words: the cache-read
count is the provider metadata's cache-read counter if present, else the
usage snapshot's generic cached-token field, else 0. -/
def specCacheReadTokens (usage : LanguageModelUsage)
    (providerMetadata : Option ProviderMetadata) : ℚ :=
  match (providerMetadata.bind ProviderMetadata.anthropic).bind AnthropicMetadata.cacheReadInputTokens with
  | some x => x
  | none =>
    match usage.cachedInputTokens with
    | some x => x
    | none => 0

theorem jsNumOrZero_eq_getD (o : Option ℚ) : jsNumOrZero o = o.getD 0 := by
  cases o with
  | none => rfl
  | some x =>
    by_cases hx : x = 0
    · simp [jsNumOrZero, hx]
    · simp [jsNumOrZero, hx]

/-- A MiniMax profile with an explicit non-empty key. -/
def sampleProfile : ProviderProfile :=
  { id := "prof1", provider := ProviderConfig.minimax (some "sk-key"), headers := [] }

/-- Settings whose resolver finds no environment variable at any scope. -/
def sampleSettingsNoEnv : SettingsData :=
  { resolveMinimaxApiKey := fun _ => none }

/-- Settings whose resolver always yields a non-empty environment value. -/
def sampleSettingsEnv : SettingsData :=
  { resolveMinimaxApiKey := fun _ => some { value := "env-key", source := "global settings" } }

/-- The response body of the spec's parsing example:
data = [{id: foo}, bar, {model: baz}, {nope: 1}]. -/
def sampleBody : JsValue :=
  JsValue.obj [("data", JsValue.arr
    [JsValue.obj [("id", JsValue.str "foo")],
     JsValue.str "bar",
     JsValue.obj [("model", JsValue.str "baz")],
     JsValue.obj [("nope", JsValue.num 1)]])]

/-- A 200 response carrying `sampleBody`. -/
def sampleParseResponse : JsResponse :=
  { status := 200, statusText := "OK", textResult := some "", jsonResult := Except.ok sampleBody }

/-- A 500 response with an HTML error body. -/
def sampleErrorResponse : JsResponse :=
  { status := 500, statusText := "Internal Server Error",
    textResult := some "<html>bad gateway</html>",
    jsonResult := Except.error (JsError.errObj "unreachable") }

/-- C4: calculateMiniMaxCost is exactly sentTokens times the input rate
plus receivedTokens times the output rate plus cacheWriteTokens times the
cache-write rate plus cacheReadTokens times the cache-read rate, the
cache-write rate defaulting to the input rate, the cache-read rate to 0,
and every absent rate to 0, with no rounding or clamping (the equation is
exact over ℚ). -/
theorem minimax_C4_cost_formula (model : Model) (sent received cw cr : ℚ) :
    calculateMiniMaxCost model sent received cw cr =
      specCostFormula model sent received cw cr := by
  simp only [calculateMiniMaxCost, specCostFormula]
  ring

/-- C10: the model field of every usage report is the provider profile's
identifier, a slash, and the model's identifier, in that order. -/
theorem minimax_C10_report_model_field (task : AgentTask) (provider : ProviderProfile)
    (model : Model) (usage : LanguageModelUsage) (md : Option ProviderMetadata) :
    (getMiniMaxUsageReport task provider model usage md).model =
      provider.id ++ "/" ++ model.id := rfl

/-- C7: getMiniMaxAiderMapping always binds ANTHROPIC_API_URL to the fixed
MiniMax base URL, binds ANTHROPIC_API_KEY exactly when the profile carries
a truthy explicit key (the function consults no environment resolver), and
returns the model identifier prefixed with the anthropic namespace. -/
theorem minimax_C7_aider_mapping (profile : ProviderProfile) (modelId : String) :
    (getMiniMaxAiderMapping profile modelId).modelName = "anthropic/" ++ modelId ∧
    (getMiniMaxAiderMapping profile modelId).environmentVariables.lookup "ANTHROPIC_API_URL" =
      some MINIMAX_BASE_URL ∧
    (getMiniMaxAiderMapping profile modelId).environmentVariables.lookup "ANTHROPIC_API_KEY" =
      (if optStrTruthy (ProviderConfig.apiKeyField profile.provider) = true
        then some ((ProviderConfig.apiKeyField profile.provider).getD "")
        else none) := by
  refine ⟨rfl, ?_, ?_⟩
  · by_cases hk : optStrTruthy (ProviderConfig.apiKeyField profile.provider) = true
    · simp [getMiniMaxAiderMapping, hk, List.lookup]
    · simp [getMiniMaxAiderMapping, hk, List.lookup]
  · by_cases hk : optStrTruthy (ProviderConfig.apiKeyField profile.provider) = true
    · simp [getMiniMaxAiderMapping, hk, List.lookup]
    · simp [getMiniMaxAiderMapping, hk, List.lookup]

/-- A priced model for the concrete usage-report example. -/
def samplePricedModel : Model :=
  { id := "MiniMax-M2", providerId := "prof1",
    inputCostPerToken := some (1 / 1000), outputCostPerToken := some (2 / 1000),
    cacheWriteInputTokenCost := none, cacheReadInputTokenCost := none }

/-- The usage snapshot of the spec's example: inputTokens 1000,
outputTokens 200, no generic cached counter. -/
def sampleUsage : LanguageModelUsage :=
  { inputTokens := some 1000, outputTokens := some 200, cachedInputTokens := none }

/-- The provider metadata of the spec's example:
anthropic.cacheReadInputTokens = 300. -/
def sampleMetadata : ProviderMetadata :=
  { anthropic := some { cacheCreationInputTokens := none, cacheReadInputTokens := some 300 } }

/-- A task whose prior running total is 5.0. -/
def sampleTask : AgentTask := { task := { agentTotalCost := 5 } }

/-- C5: every usage report takes its cache-read count from the provider
metadata's cache-read counter, else the usage snapshot's generic cached
counter, else 0; sets sentTokens to total input tokens minus that count
with no clamping (an exact subtraction over ℚ, so it may be negative);
and accumulates agentTotalCost as the task's prior total plus this call's
cost.  In particular, for inputTokens 1000, outputTokens 200, metadata
cacheReadInputTokens 300 and prior total 5, sentTokens is 700 and
agentTotalCost is 5 plus the message cost. -/
theorem minimax_C5_usage_report (task : AgentTask) (provider : ProviderProfile)
    (model : Model) (usage : LanguageModelUsage) (md : Option ProviderMetadata) :
    ((getMiniMaxUsageReport task provider model usage md).cacheReadTokens =
        specCacheReadTokens usage md ∧
      (getMiniMaxUsageReport task provider model usage md).sentTokens =
        usage.inputTokens.getD 0 - specCacheReadTokens usage md ∧
      (getMiniMaxUsageReport task provider model usage md).agentTotalCost =
        task.task.agentTotalCost +
          (getMiniMaxUsageReport task provider model usage md).messageCost) ∧
    ((getMiniMaxUsageReport sampleTask sampleProfile samplePricedModel sampleUsage
        (some sampleMetadata)).sentTokens = 700 ∧
      (getMiniMaxUsageReport sampleTask sampleProfile samplePricedModel sampleUsage
        (some sampleMetadata)).agentTotalCost =
        5 + (getMiniMaxUsageReport sampleTask sampleProfile samplePricedModel sampleUsage
          (some sampleMetadata)).messageCost) := by
  refine ⟨⟨?_, ?_, rfl⟩, ?_, rfl⟩
  · simp only [getMiniMaxUsageReport, specCacheReadTokens]
    cases (md.bind ProviderMetadata.anthropic).bind AnthropicMetadata.cacheReadInputTokens with
    | none => cases usage.cachedInputTokens <;> rfl
    | some x => rfl
  · simp only [getMiniMaxUsageReport, specCacheReadTokens, jsNumOrZero_eq_getD]
    cases (md.bind ProviderMetadata.anthropic).bind AnthropicMetadata.cacheReadInputTokens with
    | none => cases usage.cachedInputTokens <;> rfl
    | some x => rfl
  · show (1000 : ℚ) - 300 = 700
    norm_num

/-- C6: createMiniMaxLlm takes the profile's explicit key first, else the
project-scoped environment value (logging its source), and yields the
configuration error naming MINIMAX_API_KEY exactly when neither source
gives a non-empty key. -/
theorem minimax_C6_create_llm (profile : ProviderProfile) (model : Model)
    (settings : SettingsData) (projectDir : String) :
    ((createMiniMaxLlm profile model settings projectDir).1 =
        Except.error minimaxKeyErrorMessage ↔
      (optStrTruthy (ProviderConfig.apiKeyField profile.provider) = false ∧
        envValueTruthy (settings.resolveMinimaxApiKey (some projectDir)) = false)) ∧
    (∃ a b, minimaxKeyErrorMessage = a ++ "MINIMAX_API_KEY" ++ b) ∧
    (optStrTruthy (ProviderConfig.apiKeyField profile.provider) = true →
      createMiniMaxLlm profile model settings projectDir =
        (Except.ok
          { apiKey := (ProviderConfig.apiKeyField profile.provider).getD ""
            baseURL := MINIMAX_BASE_URL
            headers := profile.headers
            modelId := model.id }, [])) ∧
    (optStrTruthy (ProviderConfig.apiKeyField profile.provider) = false →
      ∀ v, settings.resolveMinimaxApiKey (some projectDir) = some v → v.value ≠ "" →
        createMiniMaxLlm profile model settings projectDir =
          (Except.ok
            { apiKey := v.value
              baseURL := MINIMAX_BASE_URL
              headers := profile.headers
              modelId := model.id },
            [LogEntry.debug ("Loaded MINIMAX_API_KEY from " ++ v.source)])) := by
  refine ⟨?_, ⟨"MiniMax API key is required in Providers settings or Aider environment variables (", ")", rfl⟩, ?_, ?_⟩
  · constructor
    · intro herr
      by_cases hk : optStrTruthy (ProviderConfig.apiKeyField profile.provider) = true
      · exfalso
        have hne : (ProviderConfig.apiKeyField profile.provider).getD "" ≠ "" := by
          cases hf : ProviderConfig.apiKeyField profile.provider with
          | none => rw [hf] at hk; simp [optStrTruthy] at hk
          | some s => rw [hf] at hk; simp [optStrTruthy] at hk; simpa using hk
        simp [createMiniMaxLlm, hk, hne] at herr
      · have hk' : optStrTruthy (ProviderConfig.apiKeyField profile.provider) = false := by
          simpa using hk
        refine ⟨hk', ?_⟩
        cases hv : settings.resolveMinimaxApiKey (some projectDir) with
        | none => simp [envValueTruthy]
        | some v =>
          by_cases hval : v.value = ""
          · simp [envValueTruthy, hval]
          · exfalso
            simp [createMiniMaxLlm, hk', hv, hval] at herr
    · rintro ⟨hk, henv⟩
      cases hv : settings.resolveMinimaxApiKey (some projectDir) with
      | none => simp [createMiniMaxLlm, hk, hv]
      | some v =>
        have hval : v.value = "" := by
          rw [hv] at henv
          simpa [envValueTruthy] using henv
        simp [createMiniMaxLlm, hk, hv, hval]
  · intro hk
    have hne : (ProviderConfig.apiKeyField profile.provider).getD "" ≠ "" := by
      cases hf : ProviderConfig.apiKeyField profile.provider with
      | none => rw [hf] at hk; simp [optStrTruthy] at hk
      | some s => rw [hf] at hk; simp [optStrTruthy] at hk; simpa using hk
    simp [createMiniMaxLlm, hk, hne]
  · intro hk v hv hval
    simp [createMiniMaxLlm, hk, hv, hval]

/-- C6 witness: a profile with no explicit key and a resolver finding no
environment variable makes createMiniMaxLlm yield the configuration
error naming MINIMAX_API_KEY. -/
theorem minimax_C6_create_llm_witness :
    (createMiniMaxLlm { id := "prof1", provider := ProviderConfig.minimax none, headers := [] }
        samplePricedModel sampleSettingsNoEnv "/proj").1 =
      Except.error minimaxKeyErrorMessage :=
  (minimax_C6_create_llm { id := "prof1", provider := ProviderConfig.minimax none, headers := [] }
      samplePricedModel sampleSettingsNoEnv "/proj").1.mpr ⟨rfl, rfl⟩

/-- C9: an explicit API key equal to the empty string is treated as
absent: getMiniMaxAiderMapping binds only the base URL, and
createMiniMaxLlm behaves exactly as with no explicit key, falling back
to project-scoped environment resolution and erroring when that too
yields no non-empty value. -/
theorem minimax_C9_empty_key_absent (pid : String) (hdrs : List (String × String))
    (modelId : String) (model : Model) (settings : SettingsData) (projectDir : String) :
    (getMiniMaxAiderMapping
        { id := pid, provider := ProviderConfig.minimax (some ""), headers := hdrs }
        modelId).environmentVariables =
      [("ANTHROPIC_API_URL", MINIMAX_BASE_URL)] ∧
    createMiniMaxLlm { id := pid, provider := ProviderConfig.minimax (some ""), headers := hdrs }
        model settings projectDir =
      createMiniMaxLlm { id := pid, provider := ProviderConfig.minimax none, headers := hdrs }
        model settings projectDir ∧
    (envValueTruthy (settings.resolveMinimaxApiKey (some projectDir)) = false →
      (createMiniMaxLlm
          { id := pid, provider := ProviderConfig.minimax (some ""), headers := hdrs }
          model settings projectDir).1 =
        Except.error minimaxKeyErrorMessage) := by
  refine ⟨rfl, rfl, ?_⟩
  intro henv
  cases hv : settings.resolveMinimaxApiKey (some projectDir) with
  | none => simp +decide [createMiniMaxLlm, optStrTruthy, ProviderConfig.apiKeyField, hv]
  | some v =>
    have hval : v.value = "" := by
      rw [hv] at henv
      simpa [envValueTruthy] using henv
    simp +decide [createMiniMaxLlm, optStrTruthy, ProviderConfig.apiKeyField, hv, hval]

/-- C9 witness: with an explicit empty-string key, the aider mapping
omits ANTHROPIC_API_KEY and client construction with an env-less
resolver errors. -/
theorem minimax_C9_empty_key_absent_witness :
    (getMiniMaxAiderMapping
        { id := "prof1", provider := ProviderConfig.minimax (some ""), headers := [] }
        "MiniMax-M2").environmentVariables =
      [("ANTHROPIC_API_URL", MINIMAX_BASE_URL)] ∧
    (createMiniMaxLlm { id := "prof1", provider := ProviderConfig.minimax (some ""), headers := [] }
        samplePricedModel sampleSettingsNoEnv "/proj").1 =
      Except.error minimaxKeyErrorMessage := by
  have h := minimax_C9_empty_key_absent "prof1" [] "MiniMax-M2" samplePricedModel
    sampleSettingsNoEnv "/proj"
  exact ⟨h.1, h.2.2 rfl⟩

/-- C3: a MiniMax profile whose explicit key is absent or empty and whose
environment resolution yields no non-empty value makes loadMiniMaxModels
return no models and success false without issuing the HTTP request,
whatever the network would have answered; and whenever an explicit
non-empty key exists, the issued request carries that key in its
x-api-key header, whatever the environment resolves to. -/
theorem minimax_C3_missing_key (pid : String) (key : Option String)
    (hdrs : List (String × String)) (modelsInfo : String → Option ModelInfo)
    (settings : SettingsData) (outcome : FetchOutcome) :
    (optStrTruthy key = false →
      envValueTruthy (settings.resolveMinimaxApiKey none) = false →
      loadMiniMaxModels { id := pid, provider := ProviderConfig.minimax key, headers := hdrs }
          modelsInfo settings outcome =
        { request := none
          response := { models := [], success := false, error := none }
          logs := [] }) ∧
    (∀ s, key = some s → s ≠ "" →
      (loadMiniMaxModels { id := pid, provider := ProviderConfig.minimax key, headers := hdrs }
          modelsInfo settings outcome).request =
        some (requestHeaders s (settings.resolveMinimaxApiKey none)) ∧
      (requestHeaders s (settings.resolveMinimaxApiKey none)).head? =
        some ("x-api-key", s)) := by
  constructor
  · intro hk henv
    have ha : (ProviderConfig.apiKeyField (ProviderConfig.minimax key)).getD "" = "" := by
      cases key with
      | none => rfl
      | some s =>
        have : s = "" := by simpa [optStrTruthy] using hk
        simp [ProviderConfig.apiKeyField, this]
    simp [loadMiniMaxModels, isMiniMaxProvider, ha, henv]
  · rintro s rfl hsne
    refine ⟨?_, by simp [requestHeaders, hsne]⟩
    rcases outcome with r | e
    · cases hok : r.ok with
      | false =>
        simp [loadMiniMaxModels, isMiniMaxProvider, ProviderConfig.apiKeyField, hsne, hok,
          fallbackToKnownModels]
      | true =>
        cases hjr : r.jsonResult with
        | error e =>
          simp [loadMiniMaxModels, isMiniMaxProvider, ProviderConfig.apiKeyField, hsne, hok,
            hjr, fallbackToKnownModels]
        | ok d =>
          by_cases hids : (dataArray d).filterMap usableModelId = []
          · simp [loadMiniMaxModels, isMiniMaxProvider, ProviderConfig.apiKeyField, hsne, hok,
              hjr, hids, fallbackToKnownModels]
          · simp [loadMiniMaxModels, isMiniMaxProvider, ProviderConfig.apiKeyField, hsne, hok,
              hjr, hids, fallbackToKnownModels]
    · simp [loadMiniMaxModels, isMiniMaxProvider, ProviderConfig.apiKeyField, hsne,
        fallbackToKnownModels]

/-- C3 witness: with no explicit key and an env-less resolver, discovery
fails without a request even though the network would have answered 200;
and with an explicit key and a conflicting environment value, the header
carries the explicit key. -/
theorem minimax_C3_missing_key_witness :
    (loadMiniMaxModels { id := "prof1", provider := ProviderConfig.minimax none, headers := [] }
        (fun _ => none) sampleSettingsNoEnv (FetchOutcome.resp sampleParseResponse) =
      { request := none
        response := { models := [], success := false, error := none }
        logs := [] }) ∧
    ((loadMiniMaxModels sampleProfile (fun _ => none) sampleSettingsEnv
        (FetchOutcome.resp sampleParseResponse)).request =
      some (requestHeaders "sk-key" (sampleSettingsEnv.resolveMinimaxApiKey none)) ∧
      (requestHeaders "sk-key" (sampleSettingsEnv.resolveMinimaxApiKey none)).head? =
        some ("x-api-key", "sk-key")) := by
  constructor
  · exact (minimax_C3_missing_key "prof1" none [] (fun _ => none) sampleSettingsNoEnv
      (FetchOutcome.resp sampleParseResponse)).1 rfl rfl
  · exact (minimax_C3_missing_key "prof1" (some "sk-key") [] (fun _ => none) sampleSettingsEnv
      (FetchOutcome.resp sampleParseResponse)).2 "sk-key" rfl (by decide)

/-- C2: on a 2xx response whose body's data array yields at least one
usable identifier, loadMiniMaxModels returns success true and exactly the
surviving identifiers in their original order (each entry parsed by
usableModelId: a bare string, or an object's id, model or name field in
that priority order, discarding entries without a usable non-empty string
identifier), with no warning logged. -/
theorem minimax_C2_parse_success (profile : ProviderProfile)
    (modelsInfo : String → Option ModelInfo) (settings : SettingsData)
    (r : JsResponse) (d : JsValue)
    (hGuard : isMiniMaxProvider profile.provider = true)
    (hKey : (ProviderConfig.apiKeyField profile.provider).getD "" ≠ "" ∨
      envValueTruthy (settings.resolveMinimaxApiKey none) = true)
    (hok : r.ok = true) (hjson : r.jsonResult = Except.ok d)
    (hne : (dataArray d).filterMap usableModelId ≠ []) :
    (loadMiniMaxModels profile modelsInfo settings (FetchOutcome.resp r)).response =
      { models := ((dataArray d).filterMap usableModelId).map (toModel profile.id modelsInfo)
        success := true
        error := none } ∧
    (loadMiniMaxModels profile modelsInfo settings (FetchOutcome.resp r)).logs = [] := by
  have hc : ¬((ProviderConfig.apiKeyField profile.provider).getD "" = "" ∧
      envValueTruthy (settings.resolveMinimaxApiKey none) = false) := by
    rcases hKey with h | h
    · exact fun hh => h hh.1
    · intro hh
      rw [h] at hh
      exact absurd hh.2 (by simp)
  constructor <;> simp [loadMiniMaxModels, hGuard, hc, hok, hjson, hne]

/-- C2 witness: the spec's example body data = [{id: foo}, bar,
{model: baz}, {nope: 1}] yields success true with identifiers exactly
foo, bar, baz in that order. -/
theorem minimax_C2_parse_success_witness :
    (loadMiniMaxModels sampleProfile (fun _ => none) sampleSettingsNoEnv
        (FetchOutcome.resp sampleParseResponse)).response.models.map Model.id =
      ["foo", "bar", "baz"] ∧
    (loadMiniMaxModels sampleProfile (fun _ => none) sampleSettingsNoEnv
        (FetchOutcome.resp sampleParseResponse)).response.success = true := by
  have h := minimax_C2_parse_success sampleProfile (fun _ => none) sampleSettingsNoEnv
    sampleParseResponse sampleBody rfl (Or.inl (by decide)) (by decide) rfl (by decide)
  rw [h.1]
  exact ⟨by decide, rfl⟩

/-- C8: once the type guard and the key check pass, loadMiniMaxModels
returns success true with a non-empty model list on every possible
outcome of the HTTP interaction; no path returns success false and the
function is total. -/
theorem minimax_C8_always_succeeds_with_key (profile : ProviderProfile)
    (modelsInfo : String → Option ModelInfo) (settings : SettingsData)
    (outcome : FetchOutcome)
    (hGuard : isMiniMaxProvider profile.provider = true)
    (hKey : (ProviderConfig.apiKeyField profile.provider).getD "" ≠ "" ∨
      envValueTruthy (settings.resolveMinimaxApiKey none) = true) :
    (loadMiniMaxModels profile modelsInfo settings outcome).response.success = true ∧
    (loadMiniMaxModels profile modelsInfo settings outcome).response.models ≠ [] := by
  have hc : ¬((ProviderConfig.apiKeyField profile.provider).getD "" = "" ∧
      envValueTruthy (settings.resolveMinimaxApiKey none) = false) := by
    rcases hKey with h | h
    · exact fun hh => h hh.1
    · intro hh
      rw [h] at hh
      exact absurd hh.2 (by simp)
  rcases outcome with r | e
  · cases hok : r.ok with
    | false =>
      constructor <;>
        simp [loadMiniMaxModels, hGuard, hc, hok, fallbackToKnownModels, KNOWN_MINIMAX_MODELS]
    | true =>
      cases hjr : r.jsonResult with
      | error e =>
        constructor <;>
          simp [loadMiniMaxModels, hGuard, hc, hok, hjr, fallbackToKnownModels,
            KNOWN_MINIMAX_MODELS]
      | ok d =>
        by_cases hids : (dataArray d).filterMap usableModelId = []
        · constructor <;>
            simp [loadMiniMaxModels, hGuard, hc, hok, hjr, hids, fallbackToKnownModels,
              KNOWN_MINIMAX_MODELS]
        · constructor <;>
            simp [loadMiniMaxModels, hGuard, hc, hok, hjr, hids]
  · constructor <;>
      simp [loadMiniMaxModels, hGuard, hc, fallbackToKnownModels, KNOWN_MINIMAX_MODELS]

/-- C8 witness: with a valid key, even a rejected fetch yields success
true and a non-empty model list. -/
theorem minimax_C8_always_succeeds_with_key_witness :
    (loadMiniMaxModels sampleProfile (fun _ => none) sampleSettingsNoEnv
        (FetchOutcome.reject (JsError.errObj "ECONNREFUSED"))).response.success = true ∧
    (loadMiniMaxModels sampleProfile (fun _ => none) sampleSettingsNoEnv
        (FetchOutcome.reject (JsError.errObj "ECONNREFUSED"))).response.models ≠ [] :=
  minimax_C8_always_succeeds_with_key sampleProfile (fun _ => none) sampleSettingsNoEnv
    (FetchOutcome.reject (JsError.errObj "ECONNREFUSED")) rfl (Or.inl (by decide))

/-- C1: with a usable key, whenever the fetch rejects, or the response
is non-2xx, or its body fails to parse, or zero usable identifiers are
parsed from it, loadMiniMaxModels returns success true with models built
exactly from the static identifier list, and logs exactly one warning
whose reason text is the sanitized (tag-stripped, whitespace-collapsed,
trimmed, defaulted) raw reason; the failure is never propagated. -/
theorem minimax_C1_fallback_on_failure (profile : ProviderProfile)
    (modelsInfo : String → Option ModelInfo) (settings : SettingsData)
    (outcome : FetchOutcome)
    (hGuard : isMiniMaxProvider profile.provider = true)
    (hKey : (ProviderConfig.apiKeyField profile.provider).getD "" ≠ "" ∨
      envValueTruthy (settings.resolveMinimaxApiKey none) = true)
    (hFail :
      (∃ e, outcome = FetchOutcome.reject e) ∨
      (∃ r, outcome = FetchOutcome.resp r ∧ r.ok = false) ∨
      (∃ r e, outcome = FetchOutcome.resp r ∧ r.ok = true ∧
        r.jsonResult = Except.error e) ∨
      (∃ r d, outcome = FetchOutcome.resp r ∧ r.ok = true ∧
        r.jsonResult = Except.ok d ∧ (dataArray d).filterMap usableModelId = [])) :
    (loadMiniMaxModels profile modelsInfo settings outcome).response.success = true ∧
    (loadMiniMaxModels profile modelsInfo settings outcome).response.models =
      KNOWN_MINIMAX_MODELS.map (toModel profile.id modelsInfo) ∧
    ∃ raw, (loadMiniMaxModels profile modelsInfo settings outcome).logs =
      [LogEntry.warn (fallbackLogMessage raw)] := by
  have hc : ¬((ProviderConfig.apiKeyField profile.provider).getD "" = "" ∧
      envValueTruthy (settings.resolveMinimaxApiKey none) = false) := by
    rcases hKey with h | h
    · exact fun hh => h hh.1
    · intro hh
      rw [h] at hh
      exact absurd hh.2 (by simp)
  rcases hFail with ⟨e, rfl⟩ | ⟨r, rfl, hok⟩ | ⟨r, e, rfl, hok, hjr⟩ | ⟨r, d, rfl, hok, hjr, hids⟩
  · refine ⟨?_, ?_, reasonOfJsError e, ?_⟩ <;>
      simp [loadMiniMaxModels, hGuard, hc, fallbackToKnownModels]
  · refine ⟨?_, ?_,
      String.intercalate " - " ([toString r.status ++ " " ++ r.statusText] ++
        (if r.textResult.getD "" ≠ "" then [r.textResult.getD ""] else [])), ?_⟩ <;>
      simp [loadMiniMaxModels, hGuard, hc, hok, fallbackToKnownModels]
  · refine ⟨?_, ?_, reasonOfJsError e, ?_⟩ <;>
      simp [loadMiniMaxModels, hGuard, hc, hok, hjr, fallbackToKnownModels]
  · refine ⟨?_, ?_, "Empty or unsupported MiniMax models response payload", ?_⟩ <;>
      simp [loadMiniMaxModels, hGuard, hc, hok, hjr, hids, fallbackToKnownModels]

/-- C1 witness: a 500 response with an HTML error body falls back to the
static list with success true, and the single warning carries the
sanitized reason. -/
theorem minimax_C1_fallback_on_failure_witness :
    (loadMiniMaxModels sampleProfile (fun _ => none) sampleSettingsNoEnv
        (FetchOutcome.resp sampleErrorResponse)).response.success = true ∧
    (loadMiniMaxModels sampleProfile (fun _ => none) sampleSettingsNoEnv
        (FetchOutcome.resp sampleErrorResponse)).response.models =
      KNOWN_MINIMAX_MODELS.map (toModel "prof1" (fun _ => none)) ∧
    ∃ raw, (loadMiniMaxModels sampleProfile (fun _ => none) sampleSettingsNoEnv
        (FetchOutcome.resp sampleErrorResponse)).logs =
      [LogEntry.warn (fallbackLogMessage raw)] :=
  minimax_C1_fallback_on_failure sampleProfile (fun _ => none) sampleSettingsNoEnv
    (FetchOutcome.resp sampleErrorResponse) rfl (Or.inl (by decide))
    (Or.inr (Or.inl ⟨sampleErrorResponse, rfl, by decide⟩))
